import Mathlib

/-!
# ExpressAuthGateway — shallow embedding and verification

This file embeds the token/session lifecycle core of the ExpressAuthGateway
repository in Lean 4 and proves (or refutes) the specification claims about
it.  The embedding follows the JavaScript sources:

* `services/validation_service.js` — the pure validators (password,
  operator display name);
* the database service (`database_service.js`) — Knex queries over the
  `operators` and `tokens` tables, including the three
  transaction-wrapped multi-statement operations `setInviteToken`,
  `updatePassword` and `initOperator`;
* `init_tables.js` together with `models/operator_model.js` and
  `models/token_model.js` — the schema actually created by `createTable`
  (which column flags it honours);
* the auth controller (`auth_controller.js`) — the per-endpoint handlers
  `forgot`, `password`, `operator`, `invite`, `welcome`, `init`,
  `logout`;
* `localStrategy.js` and `routes/auth_routes.js` — the credential check
  and the `isAuthenticated` route guard.

Times are modelled as integer epoch seconds; SQL `NOW() - INTERVAL '1
HOUR'` becomes `now - 3600`.  Effectful collaborators that live outside
the repository (bcrypt's salted hash, the deep-email-validator network
check, the mail transport) are passed in as explicit function or value
parameters, so every definition stays executable.
-/

namespace AuthGateway

/-! ## Validation service (`services/validation_service.js`)

Each rule returns `valid` plus a message; `validatePassword` runs every
rule, collects the messages of the failing ones, and succeeds iff the
collection stayed empty. -/

/-- Result of one validator: the `{valid, message}` object. -/
structure RuleResult where
  valid : Bool
  message : String
deriving Repr, DecidableEq

/-- ASCII lowercase letter, the `/[a-z]/` character class. -/
def isLowerAscii (c : Char) : Bool := 'a' ≤ c && c ≤ 'z'

/-- ASCII uppercase letter, the `/[A-Z]/` character class. -/
def isUpperAscii (c : Char) : Bool := 'A' ≤ c && c ≤ 'Z'

/-- ASCII digit, the `/\d/` character class. -/
def isDigitAscii (c : Char) : Bool := '0' ≤ c && c ≤ '9'

/-- The fixed special-character set `!@#$%^&*()_+-=[]{};:,.?`. -/
def isSpecialChar (c : Char) : Bool :=
  c == '!' || c == '@' || c == '#' || c == '$' || c == '%' || c == '^' ||
  c == '&' || c == '*' || c == '(' || c == ')' || c == '_' || c == '+' ||
  c == '-' || c == '=' || c == '[' || c == ']' || c == '\x7b' || c == '\x7d' ||
  c == ';' || c == ':' || c == ',' || c == '.' || c == '?'

/-- A character allowed anywhere in a password: letter, digit, space, or a
member of the special set (the negated class in `onlyAllowedChars`). -/
def isAllowedChar (c : Char) : Bool :=
  isLowerAscii c || isUpperAscii c || isDigitAscii c || c == ' ' || isSpecialChar c

/-- Embeds `containsLowercase` rule. -/
def containsLowercase (value : String) : RuleResult :=
  ⟨value.data.any isLowerAscii, "Password must contain at least one lowercase letter"⟩

/-- Embeds `containsUppercase` rule. -/
def containsUppercase (value : String) : RuleResult :=
  ⟨value.data.any isUpperAscii, "Password must contain at least one uppercase letter"⟩

/-- Embeds `containsNumber` rule. -/
def containsNumber (value : String) : RuleResult :=
  ⟨value.data.any isDigitAscii, "Password must contain at least one number"⟩

/-- Embeds `containsSpecialChar` rule. -/
def containsSpecialCharRule (value : String) : RuleResult :=
  ⟨value.data.any isSpecialChar, "Password must contain at least one special character"⟩

/-- Embeds `onlyAllowedChars` rule: no character outside the allowed class. -/
def onlyAllowedChars (value : String) : RuleResult :=
  ⟨!(value.data.any (fun c => !(isAllowedChar c))), "Password can only contain allowed characters"⟩

/-- Embeds `atLeastEightCharacters` rule. -/
def atLeastEightCharacters (value : String) : RuleResult :=
  ⟨decide (8 ≤ value.length), "Password must have at least eight characters"⟩

/-- Embeds `atMostTwentyCharacters` rule. -/
def atMostTwentyCharacters (value : String) : RuleResult :=
  ⟨decide (value.length ≤ 20), "Password must have at most 20 characters"⟩

/-- Embeds `atLeastFiveCharactersOperator` rule (display names). -/
def atLeastFiveCharactersOperator (value : String) : RuleResult :=
  ⟨decide (5 ≤ value.length), "Make it grow a little."⟩

/-- Embeds `atMostTwentyCharactersOperator` rule (display names). -/
def atMostTwentyCharactersOperator (value : String) : RuleResult :=
  ⟨decide (value.length ≤ 20), "Easy... Take it easy."⟩

/-- The validator list of `validatePassword`, in source order. -/
def passwordValidators : List (String → RuleResult) :=
  [containsLowercase, containsUppercase, containsNumber, containsSpecialCharRule,
   onlyAllowedChars, atLeastEightCharacters, atMostTwentyCharacters]

/-- Run a validator list the way the source loop does: collect the messages
of the failing rules. -/
def collectErrors (validators : List (String → RuleResult)) (value : String) : List String :=
  (validators.map (fun v => v value)).filterMap
    (fun r => if r.valid then none else some r.message)

/-- Embeds `validatePassword` from `validation_service.js`: true iff the error
collection stayed empty. -/
def validatePassword (password : String) : Bool :=
  (collectErrors passwordValidators password).isEmpty

/-- Embeds `validateOperator` from `validation_service.js`: display-name length
in `[5, 20]`. -/
def validateOperator (operator : String) : Bool :=
  (collectErrors [atLeastFiveCharactersOperator, atMostTwentyCharactersOperator] operator).isEmpty

/-! ## Data model

Row types follow the persisted layout: `operators (_id, email, password
nullable, operator)` and `tokens (_id, _fk_operator, token, created_at)`. -/

/-- A row of the `auth.operators` table. -/
structure OperatorRow where
  _id : Nat
  email : String
  password : Option String
  operator : String
deriving Repr, DecidableEq

/-- A row of the `auth.tokens` table. -/
structure TokenRow where
  _id : Nat
  _fk_operator : Nat
  token : String
  created_at : Int
deriving Repr, DecidableEq

/-- The persistent database state: both tables, in insertion order. -/
structure Db where
  operators : List OperatorRow
  tokens : List TokenRow
deriving Repr, DecidableEq

/-- The uniform HTTP envelope `res.status(n).json({success, message})`. -/
structure HttpResponse where
  status : Nat
  success : Bool
  message : String
deriving Repr, DecidableEq

/-! ## Schema creation (`init_tables.js` + the model files)

`createTable` reads each column's `{type, primaryKey, notNull}` and builds
it with Knex: `increments` for `serial` (which Knex makes an
auto-incrementing primary key), `.primary()` when `primaryKey`,
`.notNullable()` when `notNull`.  No other column modifier — in particular
no `.unique()` — is ever invoked, so the `unique` capability of the
column builder stays at its default `false` for every column. -/

/-- The column types used by the model files. -/
inductive ColType where
  | serial
  | integer
  | text
  | dateTime
deriving Repr, DecidableEq

/-- A column description as written in a model file. -/
structure ColumnSpec where
  type : ColType
  primaryKey : Bool
  notNull : Bool
deriving Repr, DecidableEq

/-- A model file: target table plus named column descriptions. -/
structure TableModel where
  table : String
  columns : List (String × ColumnSpec)
deriving Repr, DecidableEq

/-- A column as actually created: the modifiers the Knex column builder
ended up with. -/
structure ColumnDef where
  name : String
  type : ColType
  primary : Bool
  notNull : Bool
  unique : Bool
deriving Repr, DecidableEq

/-- A created table: its name and column definitions. -/
structure TableDef where
  name : String
  columns : List ColumnDef
deriving Repr, DecidableEq

/-- The per-column body of `createTable`: step 1 chooses `increments` for
`serial` (auto primary key, implicitly not null) or a plain typed column;
step 2 applies `.primary()` when flagged; step 3 applies `.notNullable()`
when flagged.  Nothing ever sets `unique`. -/
def buildColumn (name : String) (c : ColumnSpec) : ColumnDef :=
  let base : ColumnDef :=
    match c.type with
    | .serial => ⟨name, .serial, true, true, false⟩
    | t => ⟨name, t, false, false, false⟩
  let base := if c.primaryKey then { base with primary := true } else base
  if c.notNull then { base with notNull := true } else base

/-- Embeds `createTable` from `init_tables.js`. -/
def createTable (m : TableModel) : TableDef :=
  ⟨m.table, m.columns.map (fun p => buildColumn p.1 p.2)⟩

/-- Embeds `models/operator_model.js` verbatim. -/
def operatorModel : TableModel :=
  ⟨"operators",
   [("_id", ⟨.serial, true, true⟩),
    ("email", ⟨.text, false, true⟩),
    ("password", ⟨.text, false, false⟩),
    ("operator", ⟨.text, false, true⟩)]⟩

/-- Embeds `models/token_model.js` verbatim. -/
def tokenModel : TableModel :=
  ⟨"tokens",
   [("_id", ⟨.serial, true, true⟩),
    ("_fk_operator", ⟨.integer, false, true⟩),
    ("token", ⟨.text, false, true⟩),
    ("created_at", ⟨.dateTime, false, true⟩)]⟩

/-- The `operators` table as `initDataTables` creates it. -/
def operatorsTable : TableDef := createTable operatorModel

/-- The `tokens` table as `initDataTables` creates it. -/
def tokensTable : TableDef := createTable tokenModel

/-- The columns of a created table that carry a uniqueness constraint in
PostgreSQL: primary-key columns and explicitly unique ones. -/
def uniqueColumnNames (t : TableDef) : List String :=
  (t.columns.filter (fun c => c.primary || c.unique)).map (fun c => c.name)

/-! ## Storage semantics: constraint-checked inserts

An `INSERT` succeeds unless a unique constraint of the created table is
violated, in which case PostgreSQL raises error code `23505`.  SQL `NULL`
never conflicts with anything. -/

/-- A cell value as the constraint check sees it. -/
inductive DbValue where
  | intV (n : Nat)
  | strV (s : String)
  | timeV (t : Int)
  | nullV
deriving Repr, DecidableEq

/-- Whether two cell values collide for a unique constraint (`NULL` never
collides). -/
def valueConflicts : DbValue → DbValue → Bool
  | .nullV, _ => false
  | _, .nullV => false
  | a, b => a == b

/-- Project an operator row onto a column name. -/
def opColValue (r : OperatorRow) : String → DbValue
  | "_id" => .intV r._id
  | "email" => .strV r.email
  | "password" => match r.password with
    | none => .nullV
    | some p => .strV p
  | "operator" => .strV r.operator
  | _ => .nullV

/-- Project a token row onto a column name. -/
def tokColValue (r : TokenRow) : String → DbValue
  | "_id" => .intV r._id
  | "_fk_operator" => .intV r._fk_operator
  | "token" => .strV r.token
  | "created_at" => .timeV r.created_at
  | _ => .nullV

/-- A database error: PostgreSQL error code plus message. -/
structure DbError where
  code : String
  message : String
deriving Repr, DecidableEq

/-- Two operator rows collide iff they agree on some unique column. -/
def opRowConflict (t : TableDef) (e r : OperatorRow) : Bool :=
  (uniqueColumnNames t).any (fun c => valueConflicts (opColValue e c) (opColValue r c))

/-- Two token rows collide iff they agree on some unique column. -/
def tokRowConflict (t : TableDef) (e r : TokenRow) : Bool :=
  (uniqueColumnNames t).any (fun c => valueConflicts (tokColValue e c) (tokColValue r c))

/-- An `INSERT` into `operators` under the created schema. -/
def insertOperatorRow (t : TableDef) (db : Db) (r : OperatorRow) : Except DbError Db :=
  if db.operators.any (fun e => opRowConflict t e r) then
    .error ⟨"23505", "duplicate key value violates unique constraint"⟩
  else
    .ok { db with operators := db.operators ++ [r] }

/-- An `INSERT` into `tokens` under the created schema. -/
def insertTokenRow (t : TableDef) (db : Db) (r : TokenRow) : Except DbError Db :=
  if db.tokens.any (fun e => tokRowConflict t e r) then
    .error ⟨"23505", "duplicate key value violates unique constraint"⟩
  else
    .ok { db with tokens := db.tokens ++ [r] }

/-- Next value of the `operators` serial sequence (fresh: larger than
every existing `_id`). -/
def nextOperatorId (db : Db) : Nat :=
  (db.operators.map (fun r => r._id)).foldr max 0 + 1

/-- Next value of the `tokens` serial sequence. -/
def nextTokenId (db : Db) : Nat :=
  (db.tokens.map (fun r => r._id)).foldr max 0 + 1

/-! ## Database service (`database_service.js`)

Knex's `.first()` on a filtered select is the first matching row in
table order, modelled with `List.find?`. -/

/-- Embeds `getOperatorByEmail`: `select * from operators where email = ? first`. -/
def getOperatorByEmail (db : Db) (email : String) : Option OperatorRow :=
  db.operators.find? (fun r => r.email == email)

/-- Embeds `getOperatorByName`: `select * from operators where operator = ? first`. -/
def getOperatorByName (db : Db) (name : String) : Option OperatorRow :=
  db.operators.find? (fun r => r.operator == name)

/-- Embeds `getOperatorByToken`: `tokens join operators on tokens._fk_operator =
operators._id where tokens.token = ? first`; the joined row carries both
sides, returned here as a pair.  A token whose operator is missing
produces no join row. -/
def getOperatorByToken (db : Db) (token : String) : Option (TokenRow × OperatorRow) :=
  (db.tokens.find? (fun t => t.token == token)).bind
    (fun t => (db.operators.find? (fun o => o._id == t._fk_operator)).map (fun o => (t, o)))

/-- One hour, in seconds (`INTERVAL '1 HOUR'`). -/
def oneHour : Int := 3600

/-- Embeds `getResetTokenRecord`: `tokens where token = ? and created_at >
NOW() - INTERVAL '1 HOUR' first`.  The age predicate is strict. -/
def getResetTokenRecord (db : Db) (now : Int) (token : String) : Option TokenRow :=
  db.tokens.find? (fun r => r.token == token && decide (now - oneHour < r.created_at))

/-- Embeds `getInviteTokenRecord`: `tokens where token = ? first` — no age
predicate and no kind discriminator. -/
def getInviteTokenRecord (db : Db) (token : String) : Option TokenRow :=
  db.tokens.find? (fun r => r.token == token)

/-- Embeds `setResetToken`: insert a token row for the operator; a `23505`
unique-constraint error is translated to the rate-limit message, any
other database error is re-thrown with its own message. -/
def setResetToken (db : Db) (now : Int) (operatorId : Nat) (token : String) :
    Except String Db :=
  match insertTokenRow tokensTable db ⟨nextTokenId db, operatorId, token, now⟩ with
  | .ok db1 => .ok db1
  | .error e =>
    if e.code == "23505" then
      .error "Take it easy! For your safety, only one password reset request per hour."
    else
      .error e.message

/-- Embeds `updateOperator`: `update operators set operator = name where _id = ?`. -/
def updateOperator (db : Db) (name : String) (operatorId : Nat) : Db :=
  let ops := db.operators.map
    (fun o => if o._id == operatorId then { o with operator := name } else o)
  { db with operators := ops }

/-! ## Transactions

The three multi-statement operations all use the same Knex shape:

```
knex.transaction(trx =>
  step1.transacting(trx)
    .then(_ => step2.transacting(trx))
    .then(trx.commit)
    .catch(trx.rollback))
```

If either statement fails the chain hits `.catch(trx.rollback)` and the
transaction promise rejects with the database untouched; otherwise both
statements commit together.  Each statement is a fallible state update
(`Db → Option Db`); an infrastructure failure of a statement (connection
loss, constraint violation, ...) is injected through an explicit `fail`
flag so that both branches of the combinator are reachable. -/

/-- The two-statement transaction combinator: committed final state and a
commit flag; on rollback the state is the initial one. -/
def transaction2 (w1 w2 : Db → Option Db) (db : Db) : Db × Bool :=
  match w1 db with
  | none => (db, false)
  | some db1 =>
    match w2 db1 with
    | none => (db, false)
    | some db2 => (db2, true)

/-- Embeds `setInviteToken`: inside one transaction, insert a placeholder
operator (`operator = "New Operator"`, no password) returning its new
`_id`, then insert a token row referencing that id.  `f1`/`f2` inject an
infrastructure failure of the respective statement. -/
def setInviteToken (f1 f2 : Bool) (db : Db) (now : Int) (email token : String) :
    Db × Bool :=
  transaction2
    (fun s => if f1 then none else
      (insertOperatorRow operatorsTable s ⟨nextOperatorId db, email, none, "New Operator"⟩).toOption)
    (fun s => if f2 then none else
      (insertTokenRow tokensTable s ⟨nextTokenId s, nextOperatorId db, token, now⟩).toOption)
    db

/-- Embeds `updatePassword`: inside one transaction, set the operator's
password hash (row `_id = token_record._fk_operator`), then delete the
token rows whose value equals `token_record.token`. -/
def updatePassword (f1 f2 : Bool) (db : Db) (hash : String) (tokenRecord : TokenRow) :
    Db × Bool :=
  transaction2
    (fun s => if f1 then none else
      let ops := s.operators.map
        (fun o => if o._id == tokenRecord._fk_operator then { o with password := some hash } else o)
      some { s with operators := ops })
    (fun s => if f2 then none else
      some { s with tokens := s.tokens.filter (fun t => !(t.token == tokenRecord.token)) })
    db

/-- Embeds `initOperator`: inside one transaction, set the operator's password
hash and display name, then delete the invite token rows. -/
def initOperator (f1 f2 : Bool) (db : Db) (name hash : String) (tokenRecord : TokenRow) :
    Db × Bool :=
  transaction2
    (fun s => if f1 then none else
      let ops := s.operators.map
        (fun o => if o._id == tokenRecord._fk_operator then
          { o with password := some hash, operator := name } else o)
      some { s with operators := ops })
    (fun s => if f2 then none else
      some { s with tokens := s.tokens.filter (fun t => !(t.token == tokenRecord.token)) })
    db

/-! ## Mail collaborator (`services/mail_service.js`)

`sendMail` performs an outbound `fetch`; the controller either gets a
parsed response (`ok`, `status`, and the body's `error` field) or the
call throws.  Both outcomes are passed into the controllers as data. -/

/-- A parsed mail-transport response: `response.ok`, `response.status`,
and `responseData.error` from the JSON body. -/
structure MailResponse where
  ok : Bool
  status : Nat
  error : String
deriving Repr, DecidableEq

/-- Outcome of a `sendMail` call: a response, or a thrown error message. -/
def MailOutcome := Except String MailResponse

/-! ## Auth controller (`auth_controller.js`)

Every handler catches its own errors and answers with the uniform
envelope; a thrown `Error` becomes a 500 with the error's message.  Each
handler returns the database state it leaves behind together with the
HTTP response.  The email check delegated to the external
`deep-email-validator` package is a boolean parameter `emailValid`, and
bcrypt's salted hash is a function parameter `hashFn`. -/

/-- A 500 failure envelope (the shared `catch` branch). -/
def resp500 (msg : String) : HttpResponse := ⟨500, false, msg⟩

/-- A 200 success envelope. -/
def resp200 (msg : String) : HttpResponse := ⟨200, true, msg⟩

/-- Message standing in for the rejected transaction promise's own error
text (the JS surfaces whatever message the failing statement threw). -/
def rollbackMessage : String := "transaction rolled back"

/-- The `forgot` handler: validate the email, look up the operator
(answering the generic success when absent), insert the reset token, then
send mail — and, unlike `invite`, inspect the mail response: a
non-success response is propagated with its own status and error
message. -/
def forgot (emailValid : String → Bool) (db : Db) (now : Int) (token : String)
    (mailRecipient : String) (mail : MailOutcome) : Db × HttpResponse :=
  if !(emailValid mailRecipient) then
    (db, resp500 "That's not a valid email!")
  else
    match getOperatorByEmail db mailRecipient with
    | none => (db, resp200 "If that was your email, you will soon get mail.")
    | some operator =>
      match setResetToken db now operator._id token with
      | .error msg => (db, resp500 msg)
      | .ok db1 =>
        match mail with
        | .error e => (db1, resp500 e)
        | .ok response =>
          if response.ok then
            (db1, resp200 "If that was your email, you will soon get mail.")
          else
            (db1, ⟨response.status, false, response.error⟩)

/-- The `password` handler (reset-password): validate the new password,
look up the token under the one-hour predicate (an absent or expired
token gives one and the same error), hash, then run the
`updatePassword` transaction. -/
def password (hashFn : String → String) (f1 f2 : Bool) (db : Db) (now : Int)
    (token pw : String) : Db × HttpResponse :=
  if !(validatePassword pw) then
    (db, resp500 "That's not a valid password!")
  else
    match getResetTokenRecord db now token with
    | none => (db, resp500 "This token isn't valid. Tokens time out after an hour.")
    | some tokenRecord =>
      let r := updatePassword f1 f2 db (hashFn pw) tokenRecord
      if r.2 then (r.1, resp200 "Password updated successfully")
      else (r.1, resp500 rollbackMessage)

/-- The `operator` handler (rename): validate the candidate name, check
it is not taken, update. -/
def operatorRename (db : Db) (name : String) (userId : Nat) : Db × HttpResponse :=
  if !(validateOperator name) then
    (db, resp500 "That's not a valid name.")
  else
    match getOperatorByName db name with
    | some _ => (db, resp500 "This name is taken.")
    | none => (updateOperator db name userId, resp200 ("Stand and be recognized " ++ name))

/-- The `probe` handler: same availability read, no mutation. -/
def probe (db : Db) (name : String) : Db × HttpResponse :=
  match getOperatorByName db name with
  | some _ => (db, resp500 "This name is taken.")
  | none => (db, resp200 ("Name " ++ name ++ " is available"))

/-- The `invite` handler: validate the email, reject an existing
operator, run the `setInviteToken` transaction, then send mail.  The
mail response object is never inspected: only a send call that throws
reaches the error branch. -/
def invite (emailValid : String → Bool) (f1 f2 : Bool) (db : Db) (now : Int)
    (token : String) (mailRecipient : String) (mail : MailOutcome) : Db × HttpResponse :=
  if !(emailValid mailRecipient) then
    (db, resp500 "That's not a valid email!")
  else
    match getOperatorByEmail db mailRecipient with
    | some _ => (db, resp500 "This operator has already joined.")
    | none =>
      let r := setInviteToken f1 f2 db now mailRecipient token
      if r.2 then
        match mail with
        | .error e => (r.1, resp500 e)
        | .ok _ => (r.1, resp200 "Your invitation has been extended.")
      else (r.1, resp500 rollbackMessage)

/-- The `welcome` handler: join lookup by token value (no age filter);
answers with the operator's email as the message. -/
def welcome (db : Db) (token : String) : HttpResponse :=
  match getOperatorByToken db token with
  | none => resp500 "There is no invitation for this token."
  | some r => resp200 r.2.email

/-- The `init` handler: validate the name, check availability, validate
the password, look up the invite token, hash, then run the
`initOperator` transaction — in exactly that order, each step
short-circuiting. -/
def init (hashFn : String → String) (f1 f2 : Bool) (db : Db)
    (token pw name : String) : Db × HttpResponse :=
  if !(validateOperator name) then
    (db, resp500 "That's not a valid name.")
  else
    match getOperatorByName db name with
    | some _ => (db, resp500 "This name is taken.")
    | none =>
      if !(validatePassword pw) then
        (db, resp500 "That's not a valid password.")
      else
        match getInviteTokenRecord db token with
        | none => (db, resp500 "This invitation is invalid.")
        | some tokenRecord =>
          let r := initOperator f1 f2 db name (hashFn pw) tokenRecord
          if r.2 then (r.1, resp200 "Operator successfully initialized.")
          else (r.1, resp500 rollbackMessage)

/-! ## Local strategy (`localStrategy.js`) and `login`

The strategy looks the operator up by email; bcrypt's comparison is the
parameter `cmp`.  Passing a `NULL` stored hash to `bcrypt.compare` makes
the library report an error through the callback (both arguments must be
strings), which the strategy forwards as `done(error, null, 'Bcrypt
error')` — never as a success. -/

/-- What the strategy hands to `done`: a user, a plain authentication
failure with its info string, or a forwarded error. -/
inductive StrategyOutcome where
  | success (operator : OperatorRow)
  | failure (info : String)
  | errorOut (message : String)
deriving Repr, DecidableEq

/-- The `LocalStrategy` verify callback. -/
def strategyVerify (cmp : String → String → Bool) (db : Db)
    (email pw : String) : StrategyOutcome :=
  match getOperatorByEmail db email with
  | none => .failure "Operator not found"
  | some operator =>
    match operator.password with
    | none => .errorOut "Bcrypt error"
    | some hash =>
      if cmp pw hash then .success operator
      else .failure "Password does not match"

/-- The `login` handler's custom `passport.authenticate` callback: any
outcome without an authenticated user — failure or error alike — becomes
the 400 envelope; a user yields the 200 success envelope. -/
def login (cmp : String → String → Bool) (db : Db) (email pw : String) : HttpResponse :=
  match strategyVerify cmp db email pw with
  | .success _ => resp200 "Login successful"
  | .failure _ => ⟨400, false, "You shall not pass!"⟩
  | .errorOut _ => ⟨400, false, "You shall not pass!"⟩

/-! ## Sessions, `logout`, and the route guard (`auth_routes.js`)

`req.isAuthenticated()` holds iff the session carries a deserialized
user.  The `logout` handler clears the login and destroys the session,
always answering the same success envelope.  The `/auth/logout` route is
registered behind the `isAuthenticated` middleware, which answers 403
when the session carries no user. -/

/-- Server-side session state: the passport user, and the JWT stored by
`login`. -/
structure SessionState where
  user : Option OperatorRow
  token : Option String
deriving Repr, DecidableEq

/-- Embeds `req.isAuthenticated()`. -/
def isAuthenticated (s : SessionState) : Bool := s.user.isSome

/-- The 403 envelope produced by the `isAuthenticated` middleware
(`{status: 403, success: false, message, data: []}`). -/
def resp403 : HttpResponse := ⟨403, false, "Unauthenticated. Please log in first"⟩

/-- The `logout` handler: `req.logout` then `req.session.destroy`, then
the fixed 200 success envelope — unconditionally. -/
def logoutHandler (_s : SessionState) : SessionState × HttpResponse :=
  (⟨none, none⟩, resp200 "The operator has been logged out")

/-- Embeds `GET /auth/logout` as routed: the `isAuthenticated` guard runs first. -/
def logoutRoute (s : SessionState) : SessionState × HttpResponse :=
  if isAuthenticated s then logoutHandler s else (s, resp403)

/-! ## Helper lemmas -/

/-- The error collection of a validator run stays empty exactly when
every rule passed. -/
theorem collectErrors_isEmpty_iff (vs : List (String → RuleResult)) (value : String) :
    (collectErrors vs value).isEmpty = true ↔ ∀ v ∈ vs, (v value).valid = true := by
  induction vs with
  | nil => simp [collectErrors]
  | cons v vs ih =>
    simp only [collectErrors, List.map_cons, List.filterMap_cons] at ih ⊢
    cases h : (v value).valid
    · simp [h]
    · simp [h, ih]

/-- The password rules restated in the claim's own words: at least one
lowercase letter, one uppercase letter, one digit, one special character
from the fixed set; only letters, digits, spaces and that set; length
between 8 and 20 inclusive. -/
def PasswordSpec (p : String) : Prop :=
  (∃ c ∈ p.data, isLowerAscii c = true) ∧
  (∃ c ∈ p.data, isUpperAscii c = true) ∧
  (∃ c ∈ p.data, isDigitAscii c = true) ∧
  (∃ c ∈ p.data, isSpecialChar c = true) ∧
  (∀ c ∈ p.data, isAllowedChar c = true) ∧
  (8 ≤ p.length ∧ p.length ≤ 20)

/-- C8: `validatePassword p` is true iff `p` contains a lowercase
letter, an uppercase letter, a digit, and a special character from the
fixed set, contains only letters, digits, spaces and that set, and has
length in `[8, 20]`; moreover `validatePassword "weak"` is false and
`validatePassword "Abcdef1!"` is true. -/
theorem c8_validatePassword_characterization :
    (∀ p : String, validatePassword p = true ↔ PasswordSpec p) ∧
    validatePassword "weak" = false ∧
    validatePassword "Abcdef1!" = true := by
  refine ⟨fun p => ?_, by decide, by decide⟩
  rw [validatePassword, collectErrors_isEmpty_iff]
  simp [passwordValidators, PasswordSpec, containsLowercase, containsUppercase,
    containsNumber, containsSpecialCharRule, onlyAllowedChars,
    atLeastEightCharacters, atMostTwentyCharacters,
    List.any_eq_true, and_assoc]

/-- C2: when the stored password hash is absent, credential verification
never succeeds for any submitted password and any bcrypt comparison
behaviour: the strategy reports the bcrypt error through its callback
(`done(error, null, ...)`) — it does not throw — and the `login`
handler's custom callback turns that, like every outcome without a user,
into the caught 400 authentication failure. -/
theorem c2_absent_hash_never_authenticates
    (cmp : String → String → Bool) (db : Db) (email pw : String) (op : OperatorRow)
    (hfind : getOperatorByEmail db email = some op)
    (hnull : op.password = none) :
    strategyVerify cmp db email pw = .errorOut "Bcrypt error" ∧
    (∀ o : OperatorRow, strategyVerify cmp db email pw ≠ .success o) ∧
    login cmp db email pw = ⟨400, false, "You shall not pass!"⟩ := by
  have h : strategyVerify cmp db email pw = .errorOut "Bcrypt error" := by
    unfold strategyVerify
    rw [hfind]
    simp [hnull]
  refine ⟨h, fun o hs => ?_, ?_⟩
  · rw [h] at hs
    simp at hs
  · unfold login
    rw [h]

/-- Witness for C2: a concrete database holding one never-initialized
operator. -/
theorem c2_witness :
    strategyVerify (fun a b => a == b) ⟨[⟨1, "a@b.com", none, "New Operator"⟩], []⟩
      "a@b.com" "anything" = .errorOut "Bcrypt error" ∧
    (∀ o : OperatorRow, strategyVerify (fun a b => a == b)
      ⟨[⟨1, "a@b.com", none, "New Operator"⟩], []⟩ "a@b.com" "anything" ≠ .success o) ∧
    login (fun a b => a == b) ⟨[⟨1, "a@b.com", none, "New Operator"⟩], []⟩
      "a@b.com" "anything" = ⟨400, false, "You shall not pass!"⟩ :=
  c2_absent_hash_never_authenticates (fun a b => a == b)
    ⟨[⟨1, "a@b.com", none, "New Operator"⟩], []⟩ "a@b.com" "anything"
    ⟨1, "a@b.com", none, "New Operator"⟩ (by decide) rfl

/-- A session as it stands right after a successful login. -/
def loggedInSession : SessionState :=
  ⟨some ⟨1, "a@b.com", some "hash", "Alice"⟩, some "jwt"⟩

/-- C6 counterexample: through the routed endpoint the first logout
succeeds, but the second call — the session now destroyed — is stopped
by the `isAuthenticated` guard with the 403 envelope, not the same
success response: calling logout twice does not yield the same success
response both times. -/
theorem c6_counterexample :
    (logoutRoute loggedInSession).2 = resp200 "The operator has been logged out" ∧
    (logoutRoute (logoutRoute loggedInSession).1).2 = resp403 ∧
    (logoutRoute (logoutRoute loggedInSession).1).2 ≠ (logoutRoute loggedInSession).2 := by
  refine ⟨rfl, rfl, ?_⟩
  decide

/-- C6 as amended: the logout handler itself is idempotent — for every
session state it destroys the session and answers the identical success
envelope, so a repeated invocation of the handler returns the same
success response with no error — but the routed `GET /auth/logout` sits
behind `isAuthenticated`, so a second routed call after the session was
destroyed receives the 403 envelope instead of the success one. -/
theorem c6_logout_handler_idempotent :
    (∀ s : SessionState,
      (logoutHandler s).2 = resp200 "The operator has been logged out" ∧
      logoutHandler (logoutHandler s).1 = logoutHandler s) ∧
    (∀ s : SessionState, isAuthenticated s = false → logoutRoute s = (s, resp403)) ∧
    (logoutRoute (logoutRoute loggedInSession).1).2 = resp403 := by
  refine ⟨fun s => ⟨rfl, rfl⟩, fun s h => ?_, rfl⟩
  unfold logoutRoute
  rw [h]
  simp

/-- Witness for C6's amended statement at the destroyed session. -/
theorem c6_witness :
    logoutRoute ⟨none, none⟩ = (⟨none, none⟩, resp403) :=
  c6_logout_handler_idempotent.2.1 ⟨none, none⟩ rfl

/-- C9 counterexample: on an empty database, with name `"abc"` (shape
invalid, not taken — so it passes the claim's first listed check,
availability) and password `"x"` (shape invalid), the claim's earliest
failing check is the password one, yet `init` answers with the
name-validity error: the code runs a display-name shape check before
everything else, which the claimed ordering does not account for. -/
theorem c9_counterexample :
    (init (fun s => s) false false ⟨[], []⟩ "tok" "x" "abc").2 =
      resp500 "That's not a valid name." ∧
    getOperatorByName ⟨[], []⟩ "abc" = none ∧
    validatePassword "x" = false ∧
    resp500 "That's not a valid name." ≠ resp500 "That's not a valid password." := by
  refine ⟨rfl, rfl, by decide, by decide⟩

/-- C9 as amended: `init` checks, in order, display-name shape validity,
then display-name availability, then password shape, then invite-token
validity, each short-circuiting on the first failure; the error returned
is that of the earliest failing check in that order, and when an earlier
check fails the later inputs do not influence the outcome (the database
is left untouched). -/
theorem c9_init_validation_order
    (hashFn : String → String) (f1 f2 : Bool) (db : Db) (token pw name : String) :
    (validateOperator name = false →
      init hashFn f1 f2 db token pw name = (db, resp500 "That's not a valid name.")) ∧
    (validateOperator name = true → (getOperatorByName db name).isSome = true →
      init hashFn f1 f2 db token pw name = (db, resp500 "This name is taken.")) ∧
    (validateOperator name = true → getOperatorByName db name = none →
      validatePassword pw = false →
      init hashFn f1 f2 db token pw name = (db, resp500 "That's not a valid password.")) ∧
    (validateOperator name = true → getOperatorByName db name = none →
      validatePassword pw = true → getInviteTokenRecord db token = none →
      init hashFn f1 f2 db token pw name = (db, resp500 "This invitation is invalid.")) := by
  refine ⟨fun h1 => ?_, fun h1 h2 => ?_, fun h1 h2 h3 => ?_, fun h1 h2 h3 h4 => ?_⟩
  · unfold init
    rw [h1]
    rfl
  · unfold init
    rw [h1]
    obtain ⟨r, hr⟩ := Option.isSome_iff_exists.mp h2
    rw [hr]
    rfl
  · unfold init
    rw [h1, h2, h3]
    rfl
  · unfold init
    rw [h1, h2, h3, h4]
    rfl

/-- Witness for C9's amended statement: the password-shape branch fires
on an empty database with an available valid name and a bad password. -/
theorem c9_witness :
    init (fun s => s) false false ⟨[], []⟩ "tok" "x" "Carol" =
      (⟨[], []⟩, resp500 "That's not a valid password.") :=
  (c9_init_validation_order (fun s => s) false false ⟨[], []⟩ "tok" "x" "Carol").2.2.1
    (by decide) rfl (by decide)

/-- Helper: when `r` is the only row carrying token value `tok`, a
filtered `first()` over the table returns `r` exactly when the extra
predicate accepts `r`. -/
theorem find?_token_unique (l : List TokenRow) (tok : String) (r : TokenRow)
    (p : TokenRow → Bool) (hr : r ∈ l) (hrt : r.token = tok)
    (huniq : ∀ t ∈ l, t.token = tok → t = r) :
    l.find? (fun t => t.token == tok && p t) = if p r then some r else none := by
  induction l with
  | nil => cases hr
  | cons a l ih =>
    by_cases ha : a.token = tok
    · have har : a = r := huniq a (List.mem_cons_self a l) ha
      subst har
      cases hp : p a
      · simp only [hp, Bool.false_eq_true, if_false]
        rw [List.find?_eq_none]
        intro t ht
        simp only [Bool.and_eq_true, beq_iff_eq, not_and]
        intro htok
        have ht2 := huniq t ht htok
        rw [ht2, hp]
        simp
      · rw [List.find?_cons_of_pos _ (by simp [ha, hp])]
        simp
    · have hr' : r ∈ l := by
        rcases List.mem_cons.mp hr with h | h
        · rw [h] at hrt
          exact absurd hrt ha
        · exact h
      have huniq' : ∀ t ∈ l, t.token = tok → t = r :=
        fun t ht => huniq t (List.mem_cons_of_mem a ht)
      rw [List.find?_cons_of_neg _ (by simp [ha])]
      exact ih hr' huniq'

/-- A database where operator 1 owns a reset token minted at time 0. -/
def c3Db : Db := ⟨[⟨1, "a@b.com", some "old", "Alice"⟩], [⟨1, 1, "tok", 0⟩]⟩

/-- C3 counterexample: at exactly one hour of elapsed time
(`now - createdAt = 3600 ≤ 3600`), the claim says `resetPassword`
succeeds, but the lookup predicate `created_at > now - 1 hour` is strict,
so the operation fails with the invalid-token error even for a valid new
password. -/
theorem c3_counterexample :
    ((3600 : Int) - 0 ≤ oneHour) ∧
    validatePassword "Abcdef1!" = true ∧
    (password (fun s => s) false false c3Db 3600 "tok" "Abcdef1!").2 =
      resp500 "This token isn't valid. Tokens time out after an hour." := by
  refine ⟨by decide, by decide, by decide⟩

/-- C3 as amended: for a valid new password and a token value owned by
exactly one row, `resetPassword` succeeds iff `now - createdAt <
1 hour` — strictly; at exactly one hour it fails — and the failure at or
past the boundary is the very same response an unknown token produces. -/
theorem c3_reset_window_strict
    (hashFn : String → String) (db : Db) (now : Int) (tok pw : String) (r : TokenRow)
    (hpw : validatePassword pw = true)
    (hr : r ∈ db.tokens) (hrt : r.token = tok)
    (huniq : ∀ t ∈ db.tokens, t.token = tok → t = r) :
    ((password hashFn false false db now tok pw).2.success = true ↔
      now - r.created_at < oneHour) ∧
    (oneHour ≤ now - r.created_at →
      (password hashFn false false db now tok pw).2 =
        resp500 "This token isn't valid. Tokens time out after an hour.") ∧
    (∀ tok2 pw2, validatePassword pw2 = true → (∀ t ∈ db.tokens, t.token ≠ tok2) →
      (password hashFn false false db now tok2 pw2).2 =
        resp500 "This token isn't valid. Tokens time out after an hour.") := by
  have hfind : getResetTokenRecord db now tok =
      if decide (now - oneHour < r.created_at) = true then some r else none :=
    find?_token_unique db.tokens tok r
      (fun t => decide (now - oneHour < t.created_at)) hr hrt huniq
  refine ⟨?_, ?_, ?_⟩
  · unfold password
    rw [hpw, hfind]
    cases hc : decide (now - oneHour < r.created_at) with
    | false =>
      have hnlt := of_decide_eq_false hc
      exact ⟨fun habs => (Bool.false_ne_true habs).elim, fun h2 => absurd h2 (by omega)⟩
    | true =>
      have hlt := of_decide_eq_true hc
      exact ⟨fun _ => by omega, fun _ => rfl⟩
  · intro hexp
    unfold password
    rw [hpw, hfind, decide_eq_false (by omega : ¬(now - oneHour < r.created_at))]
    rfl
  · intro tok2 pw2 hpw2 hnone
    have hnofind : getResetTokenRecord db now tok2 = none := by
      unfold getResetTokenRecord
      refine List.find?_eq_none.mpr ?_
      intro t ht
      simp only [Bool.and_eq_true, beq_iff_eq, not_and]
      intro htok
      exact absurd htok (hnone t ht)
    unfold password
    rw [hpw2, hnofind]
    rfl

/-- Witness for C3's amended statement: a nine-second-old token is
redeemed successfully. -/
theorem c3_witness :
    (password (fun s => s) false false c3Db 10 "tok" "Abcdef1!").2.success = true :=
  ((c3_reset_window_strict (fun s => s) c3Db 10 "tok" "Abcdef1!" ⟨1, 1, "tok", 0⟩
    (by decide) (by decide) rfl (by decide)).1).mpr (by decide)

/-- A database already holding an operator with email `a@b.com` and
display name `Alice`. -/
def c5Db : Db := ⟨[⟨1, "a@b.com", some "h", "Alice"⟩], []⟩

/-- C5 counterexample: under the schema `createTable` actually builds
from `operator_model` (no unique constraint beyond the serial primary
key), a later write storing a duplicate email succeeds at the storage
layer, and so does one storing a duplicate display name — the claim that
the storage layer rejects such writes is false. -/
theorem c5_counterexample :
    insertOperatorRow operatorsTable c5Db ⟨2, "a@b.com", none, "Bobby"⟩ =
      .ok ⟨[⟨1, "a@b.com", some "h", "Alice"⟩, ⟨2, "a@b.com", none, "Bobby"⟩], []⟩ ∧
    insertOperatorRow operatorsTable c5Db ⟨2, "c@d.com", none, "Alice"⟩ =
      .ok ⟨[⟨1, "a@b.com", some "h", "Alice"⟩, ⟨2, "c@d.com", none, "Alice"⟩], []⟩ := by
  refine ⟨rfl, rfl⟩

/-- C5 as amended: the schema created by `createTable` for the operators
table carries a uniqueness constraint only on the serial `_id`, so any
insert with a fresh `_id` succeeds at the storage layer regardless of
duplicate email or display name; email and display-name uniqueness are
only checked by the service layer's read-before-write — `invite` rejects
an email already visible to `getOperatorByEmail`, and the rename handler
rejects a name already visible to `getOperatorByName`. -/
theorem c5_uniqueness_not_storage_enforced :
    uniqueColumnNames operatorsTable = ["_id"] ∧
    (∀ (db : Db) (r : OperatorRow), (∀ e ∈ db.operators, e._id ≠ r._id) →
      insertOperatorRow operatorsTable db r = .ok { db with operators := db.operators ++ [r] }) ∧
    (∀ (emailValid : String → Bool) (f1 f2 : Bool) (db : Db) (now : Int)
       (token recipient : String) (mail : MailOutcome),
      emailValid recipient = true → (getOperatorByEmail db recipient).isSome = true →
      invite emailValid f1 f2 db now token recipient mail =
        (db, resp500 "This operator has already joined.")) ∧
    (∀ (db : Db) (name : String) (userId : Nat),
      validateOperator name = true → (getOperatorByName db name).isSome = true →
      operatorRename db name userId = (db, resp500 "This name is taken.")) := by
  refine ⟨rfl, fun db r hfresh => ?_, fun ev f1 f2 db now token recipient mail hv hs => ?_,
    fun db name userId hv hs => ?_⟩
  · unfold insertOperatorRow
    have hnoc : db.operators.any (fun e => opRowConflict operatorsTable e r) = false := by
      rw [List.any_eq_false]
      intro e he
      have : opRowConflict operatorsTable e r =
          valueConflicts (opColValue e "_id") (opColValue r "_id") := by
        simp [opRowConflict, uniqueColumnNames, operatorsTable, createTable,
          operatorModel, buildColumn]
      rw [this]
      simp only [opColValue, valueConflicts]
      simp [hfresh e he]
    rw [hnoc]
    rfl
  · unfold invite
    rw [hv]
    obtain ⟨op, hop⟩ := Option.isSome_iff_exists.mp hs
    rw [hop]
    rfl
  · unfold operatorRename
    rw [hv]
    obtain ⟨op, hop⟩ := Option.isSome_iff_exists.mp hs
    rw [hop]
    rfl

/-- Witness for C5's amended statement: the duplicate-email insert of the
counterexample database goes through the storage layer, while the
service layer rejects the same email. -/
theorem c5_witness :
    insertOperatorRow operatorsTable c5Db ⟨2, "a@b.com", none, "Bobby"⟩ =
      .ok { c5Db with operators := c5Db.operators ++ [⟨2, "a@b.com", none, "Bobby"⟩] } ∧
    invite (fun _ => true) false false c5Db 0 "tok" "a@b.com" (.ok ⟨true, 200, ""⟩) =
      (c5Db, resp500 "This operator has already joined.") :=
  ⟨c5_uniqueness_not_storage_enforced.2.1 c5Db ⟨2, "a@b.com", none, "Bobby"⟩ (by decide),
   c5_uniqueness_not_storage_enforced.2.2.1 (fun _ => true) false false c5Db 0 "tok" "a@b.com"
     (.ok ⟨true, 200, ""⟩) rfl (by decide)⟩

/-- A database where operator 1 already owns a reset token `"aa"`
created at time 0 — well inside the rate-limit window at time 60. -/
def c4Db : Db := ⟨[⟨1, "a@b.com", some "h", "Alice"⟩], [⟨1, 1, "aa", 0⟩]⟩

/-- C4 at the failing input: the tokens table `createTable` builds
carries a uniqueness constraint only on the serial `_id` — not on
`_fk_operator` — so a second `setResetToken` for the same operator
within the hour inserts without raising `23505`, a second `forgot`
request answers the generic success instead of the rate-limit error, and
two outstanding reset tokens for operator 1 coexist.  The `23505` branch
of `setResetToken` documents the intended storage-enforced limit that
the created schema never declares. -/
theorem c4_rate_limit_not_raised :
    uniqueColumnNames tokensTable = ["_id"] ∧
    setResetToken c4Db 60 1 "bb" =
      .ok ⟨[⟨1, "a@b.com", some "h", "Alice"⟩], [⟨1, 1, "aa", 0⟩, ⟨2, 1, "bb", 60⟩]⟩ ∧
    (forgot (fun _ => true) c4Db 60 "bb" "a@b.com" (.ok ⟨true, 200, ""⟩)).2 =
      resp200 "If that was your email, you will soon get mail." ∧
    ((forgot (fun _ => true) c4Db 60 "bb" "a@b.com" (.ok ⟨true, 200, ""⟩)).1.tokens.filter
      (fun t => t._fk_operator == 1)).length = 2 := by
  exact ⟨rfl, rfl, rfl, rfl⟩

/-- C7: mail-transport failure is handled asymmetrically.  After a
successful token insert, `forgot` inspects the transport response: a
non-success response is propagated to the caller with that response's
status and error message (and a success response yields the generic 200).
After a committed invite transaction, `invite` never inspects the
response object: any parsed response — success or not — leaves the 200
success result untouched, and only a send call that throws produces a
mail error. -/
theorem c7_mail_failure_asymmetry
    (emailValid : String → Bool) (f1 f2 : Bool) (db db1 : Db) (now : Int)
    (token recipient e : String) (op : OperatorRow) (resp : MailResponse) :
    (emailValid recipient = true → getOperatorByEmail db recipient = some op →
      setResetToken db now op._id token = .ok db1 →
      (resp.ok = false →
        forgot emailValid db now token recipient (.ok resp) =
          (db1, ⟨resp.status, false, resp.error⟩)) ∧
      (resp.ok = true →
        forgot emailValid db now token recipient (.ok resp) =
          (db1, resp200 "If that was your email, you will soon get mail."))) ∧
    (emailValid recipient = true → getOperatorByEmail db recipient = none →
      invite emailValid f1 f2 db now token recipient (.ok resp) =
        invite emailValid f1 f2 db now token recipient (.ok ⟨true, 200, ""⟩) ∧
      ((setInviteToken f1 f2 db now recipient token).2 = true →
        invite emailValid f1 f2 db now token recipient (.ok resp) =
          ((setInviteToken f1 f2 db now recipient token).1,
            resp200 "Your invitation has been extended.") ∧
        invite emailValid f1 f2 db now token recipient (.error e) =
          ((setInviteToken f1 f2 db now recipient token).1, resp500 e))) := by
  constructor
  · intro hv hop hins
    constructor
    · intro hok
      unfold forgot
      simp [hv, hop, hins, hok]
    · intro hok
      unfold forgot
      simp [hv, hop, hins, hok]
  · intro hv hnone
    constructor
    · unfold invite
      simp [hv, hnone]
    · intro hcommit
      constructor
      · unfold invite
        simp [hv, hnone, hcommit]
      · unfold invite
        simp [hv, hnone, hcommit]

/-- Witness for C7: with the mail transport answering 502 `"mail down"`,
`forgot` surfaces the 502 and its message while `invite` still reports
success. -/
theorem c7_witness :
    forgot (fun _ => true) c5Db 0 "tt" "a@b.com" (.ok ⟨false, 502, "mail down"⟩) =
      (⟨c5Db.operators, [⟨1, 1, "tt", 0⟩]⟩, ⟨502, false, "mail down"⟩) ∧
    invite (fun _ => true) false false ⟨[], []⟩ 0 "tt" "n@w.com" (.ok ⟨false, 502, "mail down"⟩) =
      ((setInviteToken false false ⟨[], []⟩ 0 "n@w.com" "tt").1,
        resp200 "Your invitation has been extended.") :=
  ⟨((c7_mail_failure_asymmetry (fun _ => true) false false c5Db
      ⟨c5Db.operators, [⟨1, 1, "tt", 0⟩]⟩ 0 "tt" "a@b.com" "" ⟨1, "a@b.com", some "h", "Alice"⟩
      ⟨false, 502, "mail down"⟩).1 rfl rfl rfl).1 rfl,
   (((c7_mail_failure_asymmetry (fun _ => true) false false ⟨[], []⟩
      ⟨[], []⟩ 0 "tt" "n@w.com" "" ⟨1, "", none, ""⟩
      ⟨false, 502, "mail down"⟩).2 rfl rfl).2 rfl).1⟩

/-- Helper: reduction of `transaction2` when the first statement fails. -/
theorem transaction2_none (w1 w2 : Db → Option Db) (db : Db) (h1 : w1 db = none) :
    transaction2 w1 w2 db = (db, false) := by
  unfold transaction2
  rw [h1]

/-- Helper: reduction of `transaction2` when the first statement runs. -/
theorem transaction2_some (w1 w2 : Db → Option Db) (db db1 : Db) (h1 : w1 db = some db1) :
    transaction2 w1 w2 db =
      match w2 db1 with
      | none => (db, false)
      | some db2 => (db2, true) := by
  unfold transaction2
  rw [h1]

/-- Helper: a rolled-back two-statement transaction leaves the database
exactly as it was. -/
theorem transaction2_not_committed (w1 w2 : Db → Option Db) (db : Db) :
    (transaction2 w1 w2 db).2 = false → (transaction2 w1 w2 db).1 = db := by
  cases h1 : w1 db with
  | none => rw [transaction2_none w1 w2 db h1]; intro _; rfl
  | some db1 =>
    rw [transaction2_some w1 w2 db db1 h1]
    cases h2 : w2 db1 with
    | none => intro _; rfl
    | some db2 => intro hc; simp at hc

/-- Helper: a committed two-statement transaction ran both statements in
sequence. -/
theorem transaction2_committed (w1 w2 : Db → Option Db) (db : Db) :
    (transaction2 w1 w2 db).2 = true →
    ∃ db1, w1 db = some db1 ∧ w2 db1 = some (transaction2 w1 w2 db).1 := by
  cases h1 : w1 db with
  | none => rw [transaction2_none w1 w2 db h1]; intro hc; cases hc
  | some db1 =>
    rw [transaction2_some w1 w2 db db1 h1]
    cases h2 : w2 db1 with
    | none => intro hc; simp at hc
    | some db2 => intro _; exact ⟨db1, rfl, h2⟩

/-- Helper: `Except.toOption` yields `some` only from `ok`. -/
theorem except_toOption_some {ε α : Type} {x : Except ε α} {a : α}
    (h : x.toOption = some a) : x = .ok a := by
  cases x with
  | error e => simp [Except.toOption] at h
  | ok b => simp [Except.toOption] at h; rw [h]

/-- Helper: a successful operator insert appended exactly the new row. -/
theorem insertOperatorRow_ok_shape {t : TableDef} {db : Db} {r : OperatorRow} {db1 : Db}
    (h : insertOperatorRow t db r = .ok db1) :
    db1 = { db with operators := db.operators ++ [r] } := by
  unfold insertOperatorRow at h
  split at h
  · cases h
  · injection h with h
    exact h.symm

/-- Helper: a successful token insert appended exactly the new row. -/
theorem insertTokenRow_ok_shape {t : TableDef} {db : Db} {r : TokenRow} {db1 : Db}
    (h : insertTokenRow t db r = .ok db1) :
    db1 = { db with tokens := db.tokens ++ [r] } := by
  unfold insertTokenRow at h
  split at h
  · cases h
  · injection h with h
    exact h.symm

/-- C1: each of the three multi-write operations is atomic.  On rollback
(any statement failing) the database is exactly the initial one — no
state where the operator was updated but the token remains, and no token
row for a never-inserted operator.  On commit both writes took effect:
`setInviteToken` left both the placeholder operator row and a token row
referencing its freshly assigned id; `updatePassword` left every row with
the token's operator id carrying the new hash and no row with the
token's value; `initOperator` likewise including the new display name. -/
theorem c1_multi_write_atomicity
    (db : Db) (f1 f2 : Bool) (now : Int) (email tok hash name : String) (rec : TokenRow) :
    (((setInviteToken f1 f2 db now email tok).2 = false →
        (setInviteToken f1 f2 db now email tok).1 = db) ∧
     ((setInviteToken f1 f2 db now email tok).2 = true →
        (⟨nextOperatorId db, email, none, "New Operator"⟩ : OperatorRow) ∈
          (setInviteToken f1 f2 db now email tok).1.operators ∧
        ∃ t ∈ (setInviteToken f1 f2 db now email tok).1.tokens,
          t.token = tok ∧ t._fk_operator = nextOperatorId db)) ∧
    (((updatePassword f1 f2 db hash rec).2 = false →
        (updatePassword f1 f2 db hash rec).1 = db) ∧
     ((updatePassword f1 f2 db hash rec).2 = true →
        (∀ o ∈ (updatePassword f1 f2 db hash rec).1.operators,
          o._id = rec._fk_operator → o.password = some hash) ∧
        (∀ t ∈ (updatePassword f1 f2 db hash rec).1.tokens, t.token ≠ rec.token))) ∧
    (((initOperator f1 f2 db name hash rec).2 = false →
        (initOperator f1 f2 db name hash rec).1 = db) ∧
     ((initOperator f1 f2 db name hash rec).2 = true →
        (∀ o ∈ (initOperator f1 f2 db name hash rec).1.operators,
          o._id = rec._fk_operator → o.password = some hash ∧ o.operator = name) ∧
        (∀ t ∈ (initOperator f1 f2 db name hash rec).1.tokens, t.token ≠ rec.token))) := by
  refine ⟨⟨?_, ?_⟩, ⟨?_, ?_⟩, ⟨?_, ?_⟩⟩
  · unfold setInviteToken
    exact transaction2_not_committed _ _ _
  · intro hc
    unfold setInviteToken at hc ⊢
    obtain ⟨db1, hw1, hw2⟩ := transaction2_committed _ _ _ hc
    cases f1 with
    | true => simp at hw1
    | false =>
      cases f2 with
      | true => simp at hw2
      | false =>
        simp only [Bool.false_eq_true, if_false] at hw1 hw2 ⊢
        have hshape1 := insertOperatorRow_ok_shape (except_toOption_some hw1)
        subst hshape1
        have hshape2 := insertTokenRow_ok_shape (except_toOption_some hw2)
        rw [hshape2]
        constructor
        · simp
        · refine ⟨⟨nextTokenId ⟨db.operators ++
            [⟨nextOperatorId db, email, none, "New Operator"⟩], db.tokens⟩,
            nextOperatorId db, tok, now⟩, ?_, rfl, rfl⟩
          simp
  · unfold updatePassword
    exact transaction2_not_committed _ _ _
  · intro hc
    unfold updatePassword at hc ⊢
    obtain ⟨db1, hw1, hw2⟩ := transaction2_committed _ _ _ hc
    cases f1 with
    | true => simp at hw1
    | false =>
      cases f2 with
      | true => simp at hw2
      | false =>
        simp only [Bool.false_eq_true, if_false, Option.some.injEq] at hw1 hw2 ⊢
        rw [← hw2, ← hw1]
        constructor
        · intro o ho hid
          obtain ⟨o1, ho1, rfl⟩ := List.mem_map.mp ho
          cases hb : (o1._id == rec._fk_operator) with
          | true => simp [hb]
          | false =>
            simp only [hb, Bool.false_eq_true, if_false] at hid ⊢
            exact absurd hid (by simpa using hb)
        · intro t ht
          have := (List.mem_filter.mp ht).2
          simpa using this
  · unfold initOperator
    exact transaction2_not_committed _ _ _
  · intro hc
    unfold initOperator at hc ⊢
    obtain ⟨db1, hw1, hw2⟩ := transaction2_committed _ _ _ hc
    cases f1 with
    | true => simp at hw1
    | false =>
      cases f2 with
      | true => simp at hw2
      | false =>
        simp only [Bool.false_eq_true, if_false, Option.some.injEq] at hw1 hw2 ⊢
        rw [← hw2, ← hw1]
        constructor
        · intro o ho hid
          obtain ⟨o1, ho1, rfl⟩ := List.mem_map.mp ho
          cases hb : (o1._id == rec._fk_operator) with
          | true => simp [hb]
          | false =>
            simp only [hb, Bool.false_eq_true, if_false] at hid ⊢
            exact absurd hid (by simpa using hb)
        · intro t ht
          have := (List.mem_filter.mp ht).2
          simpa using this

/-- A small live database for concrete checks: operator 1 holds token
`"tk"` minted at time 0. -/
def dbW : Db := ⟨[⟨1, "w@x.com", some "old", "Wanda"⟩], [⟨1, 1, "tk", 0⟩]⟩

/-- Witness for C1: a committed `updatePassword` removed the token rows,
and a transaction whose second statement fails left the database
untouched. -/
theorem c1_witness :
    (∀ t ∈ (updatePassword false false dbW "H" ⟨1, 1, "tk", 0⟩).1.tokens, t.token ≠ "tk") ∧
    (setInviteToken false true dbW 5 "n@w.com" "t2").1 = dbW :=
  ⟨((c1_multi_write_atomicity dbW false false 5 "n@w.com" "tk" "H" "Nm" ⟨1, 1, "tk", 0⟩).2.1.2
      rfl).2,
   (c1_multi_write_atomicity dbW false true 5 "n@w.com" "tk" "H" "Nm" ⟨1, 1, "tk", 0⟩).1.1 rfl⟩

/-- Helper: every member of a list of naturals is bounded by their
`foldr max 0`. -/
theorem le_foldr_max (l : List Nat) (x : Nat) (hx : x ∈ l) : x ≤ l.foldr max 0 := by
  induction l with
  | nil => cases hx
  | cons a l ih =>
    rw [List.foldr_cons]
    rcases List.mem_cons.mp hx with h | h
    · rw [h]; exact le_max_left _ _
    · exact le_trans (ih h) (le_max_right _ _)

/-- Helper: the next serial value is fresh in the operators table. -/
theorem nextOperatorId_fresh (db : Db) : ∀ o ∈ db.operators, o._id ≠ nextOperatorId db := by
  intro o ho
  have hle := le_foldr_max (db.operators.map (fun r => r._id)) o._id
    (List.mem_map_of_mem _ ho)
  unfold nextOperatorId
  omega

/-- Helper: the next serial value is fresh in the tokens table. -/
theorem nextTokenId_fresh (db : Db) : ∀ t ∈ db.tokens, t._id ≠ nextTokenId db := by
  intro t ht
  have hle := le_foldr_max (db.tokens.map (fun r => r._id)) t._id
    (List.mem_map_of_mem _ ht)
  unfold nextTokenId
  omega

/-- Helper: an operator insert with a fresh `_id` passes the only unique
constraint of the created table and appends the row. -/
theorem insertOperatorRow_of_fresh (db : Db) (r : OperatorRow)
    (hfresh : ∀ e ∈ db.operators, e._id ≠ r._id) :
    insertOperatorRow operatorsTable db r = .ok { db with operators := db.operators ++ [r] } := by
  unfold insertOperatorRow
  have hnoc : db.operators.any (fun e => opRowConflict operatorsTable e r) = false := by
    rw [List.any_eq_false]
    intro e he
    have heq : opRowConflict operatorsTable e r =
        valueConflicts (opColValue e "_id") (opColValue r "_id") := by
      simp [opRowConflict, uniqueColumnNames, operatorsTable, createTable,
        operatorModel, buildColumn]
    rw [heq]
    simp only [opColValue, valueConflicts]
    simp [hfresh e he]
  rw [hnoc]
  rfl

/-- Helper: a token insert with a fresh `_id` passes the only unique
constraint of the created table and appends the row. -/
theorem insertTokenRow_of_fresh (db : Db) (r : TokenRow)
    (hfresh : ∀ e ∈ db.tokens, e._id ≠ r._id) :
    insertTokenRow tokensTable db r = .ok { db with tokens := db.tokens ++ [r] } := by
  unfold insertTokenRow
  have hnoc : db.tokens.any (fun e => tokRowConflict tokensTable e r) = false := by
    rw [List.any_eq_false]
    intro e he
    have heq : tokRowConflict tokensTable e r =
        valueConflicts (tokColValue e "_id") (tokColValue r "_id") := by
      simp [tokRowConflict, uniqueColumnNames, tokensTable, createTable,
        tokenModel, buildColumn]
    rw [heq]
    simp only [tokColValue, valueConflicts]
    simp [hfresh e he]
  rw [hnoc]
  rfl

/-- Helper: a committed two-statement transaction reduces to the final
state. -/
theorem transaction2_some_some (w1 w2 : Db → Option Db) (db db1 db2 : Db)
    (h1 : w1 db = some db1) (h2 : w2 db1 = some db2) :
    transaction2 w1 w2 db = (db2, true) := by
  unfold transaction2
  rw [h1]
  change (match w2 db1 with | none => (db, false) | some x => (x, true)) = (db2, true)
  rw [h2]

/-- Helper: with no injected failure the invite transaction always
commits, appending the placeholder operator and the referencing token. -/
theorem setInviteToken_commits (db : Db) (now : Int) (email tok : String) :
    setInviteToken false false db now email tok =
      (⟨db.operators ++ [⟨nextOperatorId db, email, none, "New Operator"⟩],
        db.tokens ++ [⟨nextTokenId db, nextOperatorId db, tok, now⟩]⟩, true) := by
  have hI1 := insertOperatorRow_of_fresh db ⟨nextOperatorId db, email, none, "New Operator"⟩
    (fun e he => nextOperatorId_fresh db e he)
  have hW1 : (if false = true then none
      else (insertOperatorRow operatorsTable db
        ⟨nextOperatorId db, email, none, "New Operator"⟩).toOption) =
      some ⟨db.operators ++ [⟨nextOperatorId db, email, none, "New Operator"⟩], db.tokens⟩ := by
    rw [hI1]
    rfl
  have hI2 := insertTokenRow_of_fresh
    ⟨db.operators ++ [⟨nextOperatorId db, email, none, "New Operator"⟩], db.tokens⟩
    ⟨nextTokenId ⟨db.operators ++ [⟨nextOperatorId db, email, none, "New Operator"⟩], db.tokens⟩,
      nextOperatorId db, tok, now⟩
    (fun e he => nextTokenId_fresh _ e he)
  have hW2 : (if false = true then none
      else (insertTokenRow tokensTable
        ⟨db.operators ++ [⟨nextOperatorId db, email, none, "New Operator"⟩], db.tokens⟩
        ⟨nextTokenId ⟨db.operators ++ [⟨nextOperatorId db, email, none, "New Operator"⟩],
            db.tokens⟩, nextOperatorId db, tok, now⟩).toOption) =
      some ⟨db.operators ++ [⟨nextOperatorId db, email, none, "New Operator"⟩],
        db.tokens ++ [⟨nextTokenId db, nextOperatorId db, tok, now⟩]⟩ := by
    rw [hI2]
    rfl
  unfold setInviteToken
  exact transaction2_some_some _ _ db _ _ hW1 hW2

/-- Helper: with no injected failure `updatePassword` always commits,
mapping the hash over the matching operator and filtering the token out. -/
theorem updatePassword_committed_state (db : Db) (hash : String) (rec : TokenRow) :
    updatePassword false false db hash rec =
      (⟨db.operators.map (fun o => if o._id == rec._fk_operator then
          { o with password := some hash } else o),
        db.tokens.filter (fun t => !(t.token == rec.token))⟩, true) := rfl

/-- Helper: `setResetToken` always succeeds against the created schema,
appending the new token row. -/
theorem setResetToken_inserts (db : Db) (now : Int) (opId : Nat) (tok : String) :
    setResetToken db now opId tok =
      .ok { db with tokens := db.tokens ++ [⟨nextTokenId db, opId, tok, now⟩] } := by
  unfold setResetToken
  rw [insertTokenRow_of_fresh db _ (fun e he => nextTokenId_fresh db e he)]

/-- Helper: when validation passes and the time-windowed lookup finds a
record, the reset-password handler commits the update transaction and
answers success. -/
theorem password_found (hashFn : String → String) (db : Db) (now : Int) (tok pw : String)
    (rec : TokenRow) (hpw : validatePassword pw = true)
    (hget : getResetTokenRecord db now tok = some rec) :
    password hashFn false false db now tok pw =
      ((updatePassword false false db (hashFn pw) rec).1,
        resp200 "Password updated successfully") := by
  unfold password
  rw [hpw, hget]
  rfl

/-- C10: token rows carry no kind discriminator.  A token minted by the
invite flow less than one hour ago is found by the reset lookup (value
and age are its only filters), so the reset-password operation accepts
it, stores a password hash on the still-placeholder operator and deletes
the token; conversely a token minted by `setResetToken` is found by the
`welcome` join lookup (no age and no kind filter), which answers with
the owning operator's email. -/
theorem c10_tokens_have_no_kind
    (hashFn : String → String) (db0 : Db) (now0 now : Int) (email tok tok2 pw : String)
    (op : OperatorRow)
    (htok : ∀ t ∈ db0.tokens, t.token ≠ tok)
    (hpw : validatePassword pw = true)
    (hfresh : now - now0 < oneHour)
    (htok2 : ∀ t ∈ db0.tokens, t.token ≠ tok2)
    (hopfind : db0.operators.find? (fun o => o._id == op._id) = some op) :
    (setInviteToken false false db0 now0 email tok).2 = true ∧
    (∀ dbI, setInviteToken false false db0 now0 email tok = (dbI, true) →
      (password hashFn false false dbI now tok pw).2 =
        resp200 "Password updated successfully" ∧
      (⟨nextOperatorId db0, email, some (hashFn pw), "New Operator"⟩ : OperatorRow) ∈
        (password hashFn false false dbI now tok pw).1.operators ∧
      (∀ t ∈ (password hashFn false false dbI now tok pw).1.tokens, t.token ≠ tok)) ∧
    (∃ db1, setResetToken db0 now0 op._id tok2 = .ok db1 ∧
      welcome db1 tok2 = resp200 op.email) := by
  refine ⟨by rw [setInviteToken_commits db0 now0 email tok], ?_, ?_⟩
  · intro dbI hI
    rw [setInviteToken_commits db0 now0 email tok] at hI
    have hdbI : dbI =
        ⟨db0.operators ++ [⟨nextOperatorId db0, email, none, "New Operator"⟩],
         db0.tokens ++ [⟨nextTokenId db0, nextOperatorId db0, tok, now0⟩]⟩ :=
      (congrArg Prod.fst hI).symm
    subst hdbI
    have hget : getResetTokenRecord
        ⟨db0.operators ++ [⟨nextOperatorId db0, email, none, "New Operator"⟩],
         db0.tokens ++ [⟨nextTokenId db0, nextOperatorId db0, tok, now0⟩]⟩ now tok =
        some ⟨nextTokenId db0, nextOperatorId db0, tok, now0⟩ := by
      show (db0.tokens ++ [(⟨nextTokenId db0, nextOperatorId db0, tok, now0⟩ : TokenRow)]).find?
        (fun (t : TokenRow) => t.token == tok && decide (now - oneHour < t.created_at)) =
        some ⟨nextTokenId db0, nextOperatorId db0, tok, now0⟩
      rw [List.find?_append]
      have h1 : db0.tokens.find?
          (fun t => t.token == tok && decide (now - oneHour < t.created_at)) = none :=
        List.find?_eq_none.mpr (fun t ht => by simp [htok t ht])
      rw [h1, Option.none_or]
      have hage : now - oneHour < now0 := by
        unfold oneHour at hfresh ⊢
        omega
      rw [List.find?_cons_of_pos _ (by simp [hage])]
    rw [password_found hashFn _ now tok pw _ hpw hget,
      updatePassword_committed_state]
    refine ⟨rfl, ?_, ?_⟩
    · show _ ∈ List.map _ (db0.operators ++ [⟨nextOperatorId db0, email, none, "New Operator"⟩])
      rw [List.mem_map]
      refine ⟨⟨nextOperatorId db0, email, none, "New Operator"⟩, by simp, by simp⟩
    · intro t ht
      have ht2 := (List.mem_filter.mp ht).2
      simpa using ht2
  · refine ⟨_, setResetToken_inserts db0 now0 op._id tok2, ?_⟩
    unfold welcome getOperatorByToken
    have hfindtok : (db0.tokens ++ [(⟨nextTokenId db0, op._id, tok2, now0⟩ : TokenRow)]).find?
        (fun (t : TokenRow) => t.token == tok2) = some ⟨nextTokenId db0, op._id, tok2, now0⟩ := by
      rw [List.find?_append]
      have h1 : db0.tokens.find? (fun (t : TokenRow) => t.token == tok2) = none :=
        List.find?_eq_none.mpr (fun t ht => by simp [htok2 t ht])
      rw [h1, Option.none_or]
      rw [List.find?_cons_of_pos _ (by simp)]
    show (match ((db0.tokens ++ [(⟨nextTokenId db0, op._id, tok2, now0⟩ : TokenRow)]).find?
        (fun (t : TokenRow) => t.token == tok2)).bind
        (fun (t : TokenRow) => (db0.operators.find? (fun (o : OperatorRow) => o._id == t._fk_operator)).map
          (fun (o : OperatorRow) => (t, o))) with
      | none => resp500 "There is no invitation for this token."
      | some r => resp200 r.2.email) = resp200 op.email
    rw [hfindtok]
    show (match (db0.operators.find? (fun (o : OperatorRow) => o._id == op._id)).map
        (fun (o : OperatorRow) => ((⟨nextTokenId db0, op._id, tok2, now0⟩ : TokenRow), o)) with
      | none => resp500 "There is no invitation for this token."
      | some r => resp200 r.2.email) = resp200 op.email
    rw [hopfind]
    rfl

/-- Witness for C10: on the live database `dbW`, inviting `n@w.com` with
fresh invite token `"iv"` and then redeeming `"iv"` through the reset
endpoint succeeds, and a reset token `"rs"` for operator 1 is accepted
by `welcome`. -/
theorem c10_witness :
    (setInviteToken false false dbW 0 "n@w.com" "iv").2 = true ∧
    (password (fun _ => "H") false false
      (setInviteToken false false dbW 0 "n@w.com" "iv").1 10 "iv" "Abcdef1!").2 =
      resp200 "Password updated successfully" ∧
    (∃ db1, setResetToken dbW 0 1 "rs" = .ok db1 ∧
      welcome db1 "rs" = resp200 "w@x.com") := by
  have h := c10_tokens_have_no_kind (fun _ => "H") dbW 0 10 "n@w.com" "iv" "rs" "Abcdef1!"
    ⟨1, "w@x.com", some "old", "Wanda"⟩
    (by decide) (by decide) (by decide) (by decide) (by decide)
  refine ⟨h.1, ?_, h.2.2⟩
  exact (h.2.1 (setInviteToken false false dbW 0 "n@w.com" "iv").1
    (by rw [setInviteToken_commits])).1

end AuthGateway
